import Mathlib

/-!
Shallow embedding of the profiling and provisioning logic of the
amazon-fraud-detector-python-sdk repository
(`src/frauddetector/profiler.py` and `src/frauddetector/frauddetector.py`).

Modelling conventions:
* A pandas DataFrame is a row count together with named, dtyped columns whose
  cells are `Option String` (`none` models a missing value / NaN; all cell
  payloads are modelled as strings, which is the granularity the profiler
  actually inspects — it only ever compares cells for equality).
* pandas float percentages are modelled as `Option Rat`: `none` models the NaN
  produced by the `0 / 0` division on an empty frame, and every comparison with
  `none` is `false`, matching IEEE comparisons with NaN.  `np.round(4)` is
  modelled by `round4`; numpy rounds ties to even while Mathlib's `round` is
  half-up, but no property below depends on tie behaviour.
* Python code that raises (`KeyError` on a missing column, the `NameError` on
  the undefined name `df_stats` in `__extract_frauddetector_schema`, the
  `ValueError` of `idxmin` on an empty series) is modelled with
  `Except String`.
* Column names within one DataFrame are assumed distinct, as in the repository's
  usage; the per-column statistics are computed independently, exactly as
  `pandas.DataFrame.agg` does for uniquely named columns.
-/

/-- The pandas storage dtypes the profiler distinguishes
(`profiler.py` lines 85-86, 107 compare against `object`, `"int64"`,
`"float64"`; every other dtype falls through). -/
inductive Dtype
  | object
  | int64
  | float64
  | otherDtype
deriving DecidableEq, Repr

/-- One column of a DataFrame: name, storage dtype and cells
(`none` = missing value / NaN). -/
structure Column where
  name : String
  dtype : Dtype
  cells : List (Option String)
deriving DecidableEq, Repr

/-- A pandas DataFrame: a row count (`len(df)`) and the columns. -/
structure DataFrame where
  nrows : Nat
  cols : List Column
deriving DecidableEq, Repr

/-- `df[name]` as a lookup: the first column carrying the name. -/
def DataFrame.getCol (df : DataFrame) (name : String) : Option Column :=
  df.cols.find? (fun c => c.name == name)

/-- First-occurrence deduplication, the order `pandas.Series.unique`
returns values in.  `seen` accumulates values already emitted. -/
def uniqueFirstAux [DecidableEq α] (seen : List α) : List α → List α
  | [] => []
  | x :: xs => if x ∈ seen then uniqueFirstAux seen xs
               else x :: uniqueFirstAux (x :: seen) xs

/-- `pandas.Series.unique`: distinct values in first-occurrence order. -/
def uniqueFirst [DecidableEq α] (l : List α) : List α :=
  uniqueFirstAux [] l

/-- `charsStartWith pat l` decides whether `pat` is an initial segment of `l`. -/
def charsStartWith : List Char → List Char → Bool
  | [], _ => true
  | _ :: _, [] => false
  | a :: as, b :: bs => a == b && charsStartWith as bs

/-- `charsContain pat l` decides whether `pat` occurs contiguously in `l`. -/
def charsContain (pat : List Char) : List Char → Bool
  | [] => charsStartWith pat []
  | b :: bs => charsStartWith pat (b :: bs) || charsContain pat bs

/-- `s.str.contains(pat)` for a literal (non-regex-operator) pattern:
substring containment, case-sensitive. -/
def strContains (s pat : String) : Bool :=
  charsContain pat.data s.data

/-- The regex alternation `"ipaddress|ip_address|ipaddr"` of
`profiler.py` line 87: true iff any alternative occurs in `name`. -/
def containsIpPattern (name : String) : Bool :=
  strContains name "ipaddress" || strContains name "ip_address" || strContains name "ipaddr"

/-- The regex alternation `"email|email_address|emailaddr"` of
`profiler.py` line 88. -/
def containsEmailPattern (name : String) : Bool :=
  strContains name "email" || strContains name "email_address" || strContains name "emailaddr"

/-- One row of the summary-statistics table built by
`Profiler.__calculate_summary_stats` (`profiler.py` lines 52-73). -/
structure StatRecord where
  feature_name : String
  dtype : Dtype
  count : Nat
  nunique : Nat
  null : Int
  not_null : Int
  null_pct : Option Rat
  nunique_pct : Option Rat
deriving DecidableEq, Repr

/-- Rounding to the nearest integer with ties to even, the rounding rule of
`np.round`. -/
def roundHalfEven (q : Rat) : Int :=
  let f := q.floor
  let frac := q - (f : Rat)
  if frac < (1/2 : Rat) then f
  else if (1/2 : Rat) < frac then f + 1
  else if f % 2 = 0 then f else f + 1

/-- `np.round(_, 4)` on an exact rational. -/
def round4 (q : Rat) : Rat :=
  ((roundHalfEven (q * 10000) : Int) : Rat) / 10000

/-- A float ratio `x / rowcnt` rounded to 4 decimals; `none` models the NaN
that pandas produces when `rowcnt = 0`. -/
def pctOf (x : Int) (rowcnt : Nat) : Option Rat :=
  if rowcnt = 0 then none
  else some (round4 ((x : Rat) / (rowcnt : Rat)))

/-- `astype('str')` of a single cell: NaN becomes the literal string `"nan"`. -/
def cellToStr : Option String → String
  | none => "nan"
  | some s => s

/-- The per-column body of `__calculate_summary_stats`: `count` and `nunique`
from `df.agg`, `null = rowcnt - count`, `not_null = rowcnt - null`, the two
percentage columns, and the dtype (the event column was converted with
`astype('str')` first, so it counts NaN as the string `"nan"` and always
reports dtype `object`). -/
def statOf (rowcnt : Nat) (event_column : String) (c : Column) : StatRecord :=
  let isEvent := c.name == event_column
  let effCells := if isEvent then c.cells.map (fun x => some (cellToStr x)) else c.cells
  let vals := effCells.filterMap id
  let cnt := vals.length
  let nullc : Int := (rowcnt : Int) - (cnt : Int)
  { feature_name := c.name
    dtype := if isEvent then Dtype.object else c.dtype
    count := cnt
    nunique := (uniqueFirst vals).length
    null := nullc
    not_null := (rowcnt : Int) - nullc
    null_pct := pctOf nullc rowcnt
    nunique_pct := pctOf ((uniqueFirst vals).length : Int) rowcnt }

/-- `Profiler.__calculate_summary_stats` (`profiler.py` lines 52-73).
`df[event_column]` raises `KeyError` when the column is absent. -/
def calculateSummaryStats (df : DataFrame) (event_column : String) :
    Except String (List StatRecord) :=
  if df.cols.any (fun c => c.name == event_column) then
    Except.ok (df.cols.map (statOf df.nrows event_column))
  else
    Except.error ("KeyError: " ++ event_column)

/-- A summary-statistics row with the `feature_type` column added by
`Profiler.__map_feature_types`. -/
structure TypedRecord extends StatRecord where
  feature_type : String
deriving DecidableEq, Repr

/-- The sequence of `.loc` overwrites of `Profiler.__map_feature_types`
(`profiler.py` lines 83-91), applied to one row.  Later assignments
overwrite earlier ones; the final two rules compare against the literal
strings `"EVENT_LABEL"` and `"EVENT_TIMESTAMP"`, not against the
designated columns passed to the public entry points. -/
def featureTypeOf (name : String) (dt : Dtype) : String :=
  let t := "UNKOWN"
  let t := if dt == Dtype.object then "CATEGORY" else t
  let t := if dt == Dtype.int64 || dt == Dtype.float64 then "NUMERIC" else t
  let t := if containsIpPattern name then "IP_ADDRESS" else t
  let t := if containsEmailPattern name then "EMAIL_ADDRESS" else t
  let t := if name == "EVENT_LABEL" then "TARGET" else t
  if name == "EVENT_TIMESTAMP" then "EVENT_TIMESTAMP" else t

/-- `Profiler.__map_feature_types` (`profiler.py` lines 75-91). -/
def mapFeatureTypes (stats : List StatRecord) : List TypedRecord :=
  stats.map (fun r => { toStatRecord := r, feature_type := featureTypeOf r.feature_name r.dtype })

/-- `x > t` on a possibly-NaN float: false when `x` is NaN. -/
def optGt (x : Option Rat) (t : Rat) : Bool :=
  match x with
  | none => false
  | some q => decide (t < q)

/-- `x <= t` on a possibly-NaN float: false when `x` is NaN. -/
def optLe (x : Option Rat) (t : Rat) : Bool :=
  match x with
  | none => false
  | some q => decide (q ≤ t)

/-- `x < t` on a possibly-NaN float: false when `x` is NaN. -/
def optLt (x : Option Rat) (t : Rat) : Bool :=
  match x with
  | none => false
  | some q => decide (q < t)

/-- Predicate of `profiler.py` line 103: event-label row with a distinct
count other than two. -/
def warnNonBinaryLabel (r : TypedRecord) : Bool :=
  (r.nunique != 2) && (r.feature_name == "EVENT_LABEL")

/-- Predicate of `profiler.py` line 104: CATEGORY row that is more than 90%
unique. -/
def warnTooUnique (r : TypedRecord) : Bool :=
  optGt r.nunique_pct (9/10) && (r.feature_type == "CATEGORY")

/-- Predicate of `profiler.py` line 105: null fraction in `(0.2, 0.5]`. -/
def warnHighNulls (r : TypedRecord) : Bool :=
  optGt r.null_pct (1/5) && optLe r.null_pct (1/2)

/-- Predicate of `profiler.py` line 106: null fraction above `0.5`. -/
def warnExcludeNulls (r : TypedRecord) : Bool :=
  optGt r.null_pct (1/2)

/-- Predicate of `profiler.py` line 107: numeric dtype with under 20%
distinct values. -/
def warnLowCardNumeric (r : TypedRecord) : Bool :=
  (r.dtype == Dtype.int64 || r.dtype == Dtype.float64) && optLt r.nunique_pct (1/5)

/-- The sequence of `.loc` overwrites of `Profiler.__screen_for_warnings`
(`profiler.py` lines 101-107), applied to one row; a later matching rule
overwrites an earlier one. -/
def screenWarning (r : TypedRecord) : String :=
  let w := "NO WARNING"
  let w := if warnNonBinaryLabel r then "LABEL WARNING, NON-BINARY EVENT LABEL" else w
  let w := if warnTooUnique r then "EXCLUDE, GT 90% UNIQUE" else w
  let w := if warnHighNulls r then "NULL WARNING, GT 20% MISSING" else w
  let w := if warnExcludeNulls r then "EXCLUDE, GT 50% MISSING" else w
  if warnLowCardNumeric r then "LIKELY CATEGORICAL, NUMERIC w. LOW CARDINALITY" else w

/-- A typed row with the `feature_warning` column added by
`Profiler.__screen_for_warnings`. -/
structure WarnRecord extends TypedRecord where
  feature_warning : String
deriving DecidableEq, Repr

/-- `Profiler.__screen_for_warnings` (`profiler.py` lines 93-108). -/
def screenForWarnings (typed : List TypedRecord) : List WarnRecord :=
  typed.map (fun r => { toTypedRecord := r, feature_warning := screenWarning r })

/-- `Profiler.get_summary_stats_table` (`profiler.py` lines 151-165):
statistics, then type mapping, then warning screening.  The
`timestamp_column` argument is accepted but never used, exactly as in the
source. -/
def getSummaryStatsTable (df : DataFrame) (event_column timestamp_column : String) :
    Except String (List WarnRecord) :=
  Except.map (fun s => screenForWarnings (mapFeatureTypes s))
    (calculateSummaryStats df event_column)

/-- A label descriptor `{"name": value}` emitted by
`Profiler.__create_labels`; the value is `none` when the source cell was
NaN (pandas `unique` keeps NaN). -/
structure LabelDesc where
  name : Option String
deriving DecidableEq, Repr

/-- `Profiler.__create_labels` (`profiler.py` lines 110-124): error path
(log + `return None`) only when the column holds MORE than two distinct
values; otherwise one descriptor per distinct value in first-occurrence
order. -/
def createLabels (cells : List (Option String)) : Option (List LabelDesc) :=
  if 2 < (uniqueFirst cells).length then none
  else some ((uniqueFirst cells).map (fun x => { name := x }))

/-- A variable descriptor as emitted by `Profiler.__create_variables`. -/
structure VarDesc where
  name : String
  variableType : String
  dataType : String
  defaultValue : String
deriving DecidableEq, Repr

/-- The loop body of `Profiler.__create_variables` (`profiler.py` lines
138-148): `data_type` is overwritten to `"FLOAT"` for NUMERIC rows, but the
emitted dict always carries the literal string `"unknown"` as
`defaultValue` (the `default_value` local is computed and then unused). -/
def mkVariable (r : WarnRecord) : VarDesc :=
  let data_type := "STRING"
  let data_type := if r.feature_type == "NUMERIC" then "FLOAT" else data_type
  { name := r.feature_name
    variableType := r.feature_type
    dataType := data_type
    defaultValue := "unknown" }

/-- `Profiler.__create_variables` (`profiler.py` lines 126-149): one
descriptor appended per row whose name is neither the event column nor the
timestamp column. -/
def createVariables (df_stats : List WarnRecord) (event_column timestamp_column : String) :
    List VarDesc :=
  df_stats.foldl
    (fun acc r =>
      if r.feature_name != event_column && r.feature_name != timestamp_column
      then acc ++ [mkVariable r] else acc)
    []

/-- Occurrences of value `v` among the non-null cells, as
`Series.value_counts` counts them (NaN excluded). -/
def countVal (cells : List (Option String)) (v : String) : Nat :=
  (cells.filterMap id).count v

/-- Distinct non-null values in first-occurrence order. -/
def distinctVals (cells : List (Option String)) : List String :=
  uniqueFirst (cells.filterMap id)

/-- Ordering used by `value_counts`: descending by count. -/
def countGe (p q : String × Nat) : Prop := q.2 ≤ p.2

instance : DecidableRel countGe := fun p q => Nat.decLe q.2 p.2

instance : IsTotal (String × Nat) countGe :=
  ⟨fun p q => Nat.le_total q.2 p.2⟩

instance : IsTrans (String × Nat) countGe :=
  ⟨fun _ _ _ h h2 => Nat.le_trans h2 h⟩

/-- `Series.value_counts()`: pairs `(value, count)` over the distinct
non-null values, stably sorted by descending count (groups appear in
first-occurrence order within equal counts). -/
def valueCounts (cells : List (Option String)) : List (String × Nat) :=
  List.insertionSort countGe ((distinctVals cells).map (fun v => (v, countVal cells v)))

/-- `Series.idxmin` on the counts: the first index label attaining the
minimal count; `none` for the empty series (pandas raises there). -/
def idxminVC : List (String × Nat) → Option String
  | [] => none
  | p :: ps => some (ps.foldl (fun best q => if q.2 < best.2 then q else best) p).1

/-- `Series.idxmax` on the counts: the first index label attaining the
maximal count; `none` for the empty series (pandas raises there). -/
def idxmaxVC : List (String × Nat) → Option String
  | [] => none
  | p :: ps => some (ps.foldl (fun best q => if best.2 < q.2 then q else best) p).1

/-- The `labelSchema.labelMapper` dict of the training data schema. -/
structure LabelMapper where
  fraud : List String
  legit : List String
deriving DecidableEq, Repr

/-- The training data schema dict built by
`Profiler.__extract_frauddetector_schema`. -/
structure DataSchema where
  modelVariables : List String
  labelMapper : LabelMapper
deriving DecidableEq, Repr

/-- The `isin` list of `profiler.py` line 189. -/
def modelVarTypes : List String := ["IP_ADDRESS", "EMAIL_ADDRESS", "CATEGORY", "NUMERIC"]

/-- `Profiler.__extract_frauddetector_schema` (`profiler.py` lines 167-197).
When `filter_warnings` is set, line 184 references the undefined name
`df_stats` and Python raises `NameError` before anything else happens.
Otherwise: variables from the warning table, labels and the label mapper
from the raw event column (`value_counts().idxmin()` / `.idxmax()`),
model variables from the rows whose feature type is in `modelVarTypes`. -/
def extractFrauddetectorSchema (data : DataFrame) (df_warn : List WarnRecord)
    (event_column timestamp_column : String) (filter_warnings : Bool) :
    Except String (DataSchema × List VarDesc × Option (List LabelDesc)) :=
  if filter_warnings then
    Except.error "NameError: name df_stats is not defined"
  else
    let varList := createVariables df_warn event_column timestamp_column
    match data.getCol event_column with
    | none => Except.error ("KeyError: " ++ event_column)
    | some c =>
      let labels := createLabels c.cells
      let vc := valueCounts c.cells
      match idxminVC vc, idxmaxVC vc with
      | some vmin, some vmax =>
          Except.ok
            ({ modelVariables :=
                 (df_warn.filter (fun r => modelVarTypes.contains r.feature_type)).map
                   (fun r => r.feature_name)
               labelMapper := { fraud := [vmin], legit := [vmax] } },
             varList, labels)
      | _, _ => Except.error "ValueError: attempt to get argmin of an empty sequence"

/-- `Profiler.get_frauddetector_inputs` (`profiler.py` lines 199-221):
summary-stats table first (with the default timestamp argument, which the
table builder ignores anyway), then schema extraction. -/
def getFrauddetectorInputs (data : DataFrame) (event_column timestamp_column : String)
    (filter_warnings : Bool) :
    Except String (DataSchema × List VarDesc × Option (List LabelDesc)) :=
  match getSummaryStatsTable data event_column "EVENT_TIMESTAMP" with
  | Except.error e => Except.error e
  | Except.ok df_warn =>
      extractFrauddetectorSchema data df_warn event_column timestamp_column filter_warnings

/-! ## FraudDetector provisioning operations (`frauddetector.py`) -/

/-- The per-resource status recorded by the create operations: the HTTP
status code of the remote call, or the literal `"skipped"`. -/
inductive OpStatus
  | httpCode (n : Nat)
  | skipped
deriving DecidableEq, Repr

/-- The per-instance configuration relevant to the create operations. -/
structure FDConfig where
  entity_type : String
  event_type : String
  model_name : String
deriving DecidableEq, Repr

/-- The remote service's resource sets, by name.  The `all_entities`,
`all_events`, `all_models`, `labels` and `get_variables` accessors all
fetch fresh lists from the remote service, so each create operation sees
the current state. -/
structure RemoteState where
  entityTypes : List String
  eventTypes : List String
  variableNames : List String
  labelNames : List String
  modelIds : List String
deriving DecidableEq, Repr

/-- A successful remote `put`/`create` call is modelled as returning
HTTP 200. -/
def putOk : OpStatus := OpStatus.httpCode 200

/-- `FraudDetector.create_entity_type` (`frauddetector.py` lines 280-311).
NOTE the else-branch of the source (line 306) records the skip status under
`self.event_type`, not `self.entity_type`. -/
def createEntityType (cfg : FDConfig) (st : RemoteState) :
    RemoteState × List (String × OpStatus) :=
  if cfg.entity_type ∈ st.entityTypes then
    (st, [(cfg.event_type, OpStatus.skipped)])
  else
    ({ st with entityTypes := st.entityTypes ++ [cfg.entity_type] },
     [(cfg.entity_type, putOk)])

/-- `FraudDetector.create_event_type` (`frauddetector.py` lines 334-388). -/
def createEventType (cfg : FDConfig) (st : RemoteState) :
    RemoteState × List (String × OpStatus) :=
  if cfg.event_type ∈ st.eventTypes then
    (st, [(cfg.event_type, OpStatus.skipped)])
  else
    ({ st with eventTypes := st.eventTypes ++ [cfg.event_type] },
     [(cfg.event_type, putOk)])

/-- `FraudDetector.create_variables` (`frauddetector.py` lines 422-477): the
existing-name list is fetched once, then each requested variable is either
created remotely or recorded as skipped. -/
def createVariablesRemote (varNames : List String) (st : RemoteState) :
    RemoteState × List (String × OpStatus) :=
  let existing := st.variableNames
  varNames.foldl
    (fun acc v =>
      if v ∈ existing then
        (acc.1, acc.2 ++ [(v, OpStatus.skipped)])
      else
        ({ acc.1 with variableNames := acc.1.variableNames ++ [v] },
         acc.2 ++ [(v, putOk)]))
    (st, [])

/-- `FraudDetector.create_labels` (`frauddetector.py` lines 501-541). -/
def createLabelsRemote (lblNames : List String) (st : RemoteState) :
    RemoteState × List (String × OpStatus) :=
  let existing := st.labelNames
  lblNames.foldl
    (fun acc l =>
      if l ∈ existing then
        (acc.1, acc.2 ++ [(l, OpStatus.skipped)])
      else
        ({ acc.1 with labelNames := acc.1.labelNames ++ [l] },
         acc.2 ++ [(l, putOk)]))
    (st, [])

/-- `FraudDetector.create_model` (`frauddetector.py` lines 198-234). -/
def createModel (cfg : FDConfig) (st : RemoteState) :
    RemoteState × List (String × OpStatus) :=
  if cfg.model_name ∈ st.modelIds then
    (st, [(cfg.model_name, OpStatus.skipped)])
  else
    ({ st with modelIds := st.modelIds ++ [cfg.model_name] },
     [(cfg.model_name, putOk)])

/-! ## Helper lemmas about the embedding's building blocks -/

theorem mem_uniqueFirstAux [DecidableEq α] (seen : List α) (l : List α) (a : α) :
    a ∈ uniqueFirstAux seen l ↔ a ∈ l ∧ a ∉ seen := by
  induction l generalizing seen with
  | nil => simp [uniqueFirstAux]
  | cons x xs ih =>
    by_cases hx : x ∈ seen
    · rw [uniqueFirstAux, if_pos hx, ih]
      constructor
      · rintro ⟨h1, h2⟩
        exact ⟨List.mem_cons_of_mem _ h1, h2⟩
      · rintro ⟨h1, h2⟩
        rcases List.mem_cons.1 h1 with rfl | h1
        · exact absurd hx h2
        · exact ⟨h1, h2⟩
    · rw [uniqueFirstAux, if_neg hx]
      constructor
      · intro h
        rcases List.mem_cons.1 h with rfl | h
        · exact ⟨List.mem_cons_self _ _, hx⟩
        · obtain ⟨h1, h2⟩ := (ih _).1 h
          refine ⟨List.mem_cons_of_mem _ h1, fun hs => h2 ?_⟩
          exact List.mem_cons_of_mem _ hs
      · rintro ⟨h1, h2⟩
        rcases List.mem_cons.1 h1 with rfl | h1
        · exact List.mem_cons_self _ _
        · by_cases hax : a = x
          · subst hax
            exact List.mem_cons_self _ _
          · refine List.mem_cons_of_mem _ ((ih _).2 ⟨h1, ?_⟩)
            intro hs
            rcases List.mem_cons.1 hs with h | h
            · exact hax h
            · exact h2 h

theorem mem_uniqueFirst [DecidableEq α] (l : List α) (a : α) :
    a ∈ uniqueFirst l ↔ a ∈ l := by
  rw [uniqueFirst, mem_uniqueFirstAux]
  simp

theorem nodup_uniqueFirstAux [DecidableEq α] (seen : List α) (l : List α) :
    (uniqueFirstAux seen l).Nodup := by
  induction l generalizing seen with
  | nil => exact List.nodup_nil
  | cons x xs ih =>
    by_cases hx : x ∈ seen
    · rw [uniqueFirstAux, if_pos hx]
      exact ih seen
    · rw [uniqueFirstAux, if_neg hx]
      refine List.nodup_cons.2 ⟨fun hmem => ?_, ih _⟩
      exact ((mem_uniqueFirstAux _ _ _).1 hmem).2 (List.mem_cons_self _ _)

theorem nodup_uniqueFirst [DecidableEq α] (l : List α) : (uniqueFirst l).Nodup :=
  nodup_uniqueFirstAux [] l

theorem length_uniqueFirstAux_le [DecidableEq α] (seen : List α) (l : List α) :
    (uniqueFirstAux seen l).length ≤ l.length := by
  induction l generalizing seen with
  | nil => exact Nat.le_refl 0
  | cons x xs ih =>
    by_cases hx : x ∈ seen
    · rw [uniqueFirstAux, if_pos hx]
      exact Nat.le_succ_of_le (ih seen)
    · rw [uniqueFirstAux, if_neg hx]
      exact Nat.succ_le_succ (ih _)

theorem length_uniqueFirst_le [DecidableEq α] (l : List α) :
    (uniqueFirst l).length ≤ l.length :=
  length_uniqueFirstAux_le [] l

theorem charsStartWith_iff (p l : List Char) :
    charsStartWith p l = true ↔ ∃ t, p ++ t = l := by
  induction p generalizing l with
  | nil =>
    simp [charsStartWith]
  | cons a as ih =>
    cases l with
    | nil => simp [charsStartWith]
    | cons b bs =>
      rw [charsStartWith, Bool.and_eq_true, beq_iff_eq, ih]
      constructor
      · rintro ⟨rfl, t, rfl⟩
        exact ⟨t, rfl⟩
      · rintro ⟨t, h⟩
        injection h with h1 h2
        exact ⟨h1, t, h2⟩

theorem charsContain_iff (p l : List Char) :
    charsContain p l = true ↔ ∃ s t, s ++ p ++ t = l := by
  induction l with
  | nil =>
    rw [charsContain, charsStartWith_iff]
    constructor
    · rintro ⟨t, h⟩
      exact ⟨[], t, h⟩
    · rintro ⟨s, t, h⟩
      rcases List.append_eq_nil.1 h with ⟨h1, h2⟩
      rcases List.append_eq_nil.1 h1 with ⟨rfl, rfl⟩
      exact ⟨[], rfl⟩
  | cons b bs ih =>
    rw [charsContain, Bool.or_eq_true, charsStartWith_iff, ih]
    constructor
    · rintro (⟨t, h⟩ | ⟨s, t, h⟩)
      · exact ⟨[], t, by simpa using h⟩
      · exact ⟨b :: s, t, by simpa using h⟩
    · rintro ⟨s, t, h⟩
      cases s with
      | nil =>
        left
        exact ⟨t, by simpa using h⟩
      | cons s0 ss =>
        right
        rw [List.cons_append, List.cons_append] at h
        injection h with h1 h2
        exact ⟨ss, t, by simpa using h2⟩

theorem charsContain_trans {p q l : List Char}
    (h1 : charsContain p q = true) (h2 : charsContain q l = true) :
    charsContain p l = true := by
  obtain ⟨s1, t1, rfl⟩ := (charsContain_iff p q).1 h1
  obtain ⟨s2, t2, rfl⟩ := (charsContain_iff _ l).1 h2
  refine (charsContain_iff p _).2 ⟨s2 ++ s1, t1 ++ t2, ?_⟩
  simp [List.append_assoc]

/-- Pattern transitivity of substring containment: if `p` occurs in `q` and
`q` occurs in `s`, then `p` occurs in `s`. -/
theorem strContains_of_strContains {s q p : String}
    (h1 : strContains q p = true) (h2 : strContains s q = true) :
    strContains s p = true :=
  charsContain_trans h1 h2

theorem foldl_append_filter {α β : Type} (p : α → Bool) (f : α → β)
    (l : List α) (acc : List β) :
    l.foldl (fun a r => if p r then a ++ [f r] else a) acc =
      acc ++ (l.filter p).map f := by
  induction l generalizing acc with
  | nil => simp
  | cons x xs ih =>
    by_cases hx : p x
    · rw [List.foldl_cons, if_pos hx, ih, List.filter_cons, if_pos hx]
      simp
    · rw [List.foldl_cons, if_neg hx, ih, List.filter_cons, if_neg hx]

theorem createVariables_eq (df_stats : List WarnRecord) (e t : String) :
    createVariables df_stats e t =
      (df_stats.filter (fun r => r.feature_name != e && r.feature_name != t)).map mkVariable := by
  rw [createVariables, foldl_append_filter]
  simp

@[simp] theorem statOf_feature_name (n : Nat) (e : String) (c : Column) :
    (statOf n e c).feature_name = c.name := rfl

@[simp] theorem statOf_dtype (n : Nat) (e : String) (c : Column) :
    (statOf n e c).dtype = if c.name == e then Dtype.object else c.dtype := rfl

theorem statOf_count (n : Nat) (e : String) (c : Column) :
    (statOf n e c).count =
      ((if c.name == e then c.cells.map (fun x => some (cellToStr x)) else c.cells).filterMap id).length := rfl

theorem statOf_null (n : Nat) (e : String) (c : Column) :
    (statOf n e c).null = (n : Int) - ((statOf n e c).count : Int) := rfl

theorem statOf_nunique (n : Nat) (e : String) (c : Column) :
    (statOf n e c).nunique =
      (uniqueFirst ((if c.name == e then c.cells.map (fun x => some (cellToStr x)) else c.cells).filterMap id)).length := rfl

theorem statOf_null_pct (n : Nat) (e : String) (c : Column) :
    (statOf n e c).null_pct = pctOf (statOf n e c).null n := rfl

theorem statOf_nunique_pct (n : Nat) (e : String) (c : Column) :
    (statOf n e c).nunique_pct = pctOf ((statOf n e c).nunique : Int) n := rfl

/-- Every row of a successful `getSummaryStatsTable` call comes from one of
the DataFrame's columns, with the statistics of `statOf`, the feature type
computed by `featureTypeOf` from the column's name and (event-adjusted)
dtype, and the warning of `screenWarning`. -/
theorem mem_summaryTable {df : DataFrame} {e t : String} {rs : List WarnRecord}
    (h : getSummaryStatsTable df e t = Except.ok rs) {r : WarnRecord} (hr : r ∈ rs) :
    ∃ c ∈ df.cols,
      r.toStatRecord = statOf df.nrows e c ∧
      r.feature_name = c.name ∧
      r.feature_type = featureTypeOf c.name (if c.name == e then Dtype.object else c.dtype) ∧
      r.feature_warning = screenWarning r.toTypedRecord := by
  rw [getSummaryStatsTable, calculateSummaryStats] at h
  by_cases hany : df.cols.any (fun c => c.name == e)
  · rw [if_pos hany] at h
    simp only [Except.map] at h
    injection h with h
    subst h
    simp only [screenForWarnings, mapFeatureTypes, List.map_map, List.mem_map,
      Function.comp] at hr
    obtain ⟨c, hc, rfl⟩ := hr
    refine ⟨c, hc, rfl, rfl, ?_, rfl⟩
    simp [statOf_feature_name, statOf_dtype]
  · rw [if_neg hany] at h
    simp [Except.map] at h

/-- The structure of a successful `getSummaryStatsTable` result: one row per
column, in order. -/
theorem summaryTable_ok {df : DataFrame} {e t : String} {rs : List WarnRecord}
    (h : getSummaryStatsTable df e t = Except.ok rs) :
    rs = df.cols.map (fun c =>
      let sr := statOf df.nrows e c
      let tr : TypedRecord := { toStatRecord := sr, feature_type := featureTypeOf sr.feature_name sr.dtype }
      { toTypedRecord := tr, feature_warning := screenWarning tr }) := by
  rw [getSummaryStatsTable, calculateSummaryStats] at h
  by_cases hany : df.cols.any (fun c => c.name == e)
  · rw [if_pos hany] at h
    simp only [Except.map] at h
    injection h with h
    subst h
    simp [screenForWarnings, mapFeatureTypes, List.map_map, Function.comp]
  · rw [if_neg hany] at h
    simp [Except.map] at h

theorem featureTypeOf_eventLabel (d : Dtype) :
    featureTypeOf "EVENT_LABEL" d = "TARGET" := by
  cases d <;> rfl

theorem featureTypeOf_eventTimestamp (d : Dtype) :
    featureTypeOf "EVENT_TIMESTAMP" d = "EVENT_TIMESTAMP" := by
  cases d <;> rfl

theorem rat_floor_eq_intFloor (q : Rat) : q.floor = ⌊q⌋ := by
  rw [Rat.floor_def' q, Rat.floor_def]

theorem le_roundHalfEven (q : Rat) : ⌊q⌋ ≤ roundHalfEven q := by
  rw [roundHalfEven]
  simp only [rat_floor_eq_intFloor]
  split
  · exact Int.le_refl _
  · split
    · exact Int.le_of_lt (Int.lt_succ _)
    · split
      · exact Int.le_refl _
      · exact Int.le_of_lt (Int.lt_succ _)

theorem roundHalfEven_le_ceil (q : Rat) : roundHalfEven q ≤ ⌈q⌉ := by
  rw [roundHalfEven]
  simp only [rat_floor_eq_intFloor]
  have hfc : ⌊q⌋ ≤ ⌈q⌉ := le_trans (Int.floor_le_ceil q) (le_refl _)
  have hsucc : (1/2 : Rat) ≤ q - (⌊q⌋ : Rat) → ⌊q⌋ + 1 ≤ ⌈q⌉ := by
    intro hhalf
    have h1 : ((⌊q⌋ : Int) : Rat) < q := by linarith
    have h2 : ((⌊q⌋ : Int) : Rat) < ((⌈q⌉ : Int) : Rat) := lt_of_lt_of_le h1 (Int.le_ceil q)
    have h3 : (⌊q⌋ : Int) < ⌈q⌉ := by exact_mod_cast h2
    omega
  split
  · exact hfc
  · next h1 =>
    split
    · next h2 => exact hsucc (le_of_lt h2)
    · next h2 =>
      have heq : (1/2 : Rat) ≤ q - (⌊q⌋ : Rat) := le_of_not_lt h1
      split
      · exact hfc
      · exact hsucc heq

theorem roundHalfEven_bounds {q : Rat} {n : Nat} (h0 : 0 ≤ q) (h1 : q ≤ (n : Rat)) :
    0 ≤ roundHalfEven q ∧ roundHalfEven q ≤ (n : Int) := by
  constructor
  · refine le_trans ?_ (le_roundHalfEven q)
    exact Int.le_floor.2 (by exact_mod_cast h0)
  · refine le_trans (roundHalfEven_le_ceil q) ?_
    exact Int.ceil_le.2 (by exact_mod_cast h1)

theorem round4_bounds {q : Rat} (h0 : 0 ≤ q) (h1 : q ≤ 1) :
    0 ≤ round4 q ∧ round4 q ≤ 1 := by
  have hq0 : (0 : Rat) ≤ q * 10000 := by positivity
  have hq1 : q * 10000 ≤ ((10000 : Nat) : Rat) := by
    push_cast
    nlinarith
  obtain ⟨hl, hu⟩ := roundHalfEven_bounds hq0 hq1
  rw [round4]
  constructor
  · apply div_nonneg _ (by norm_num)
    exact_mod_cast hl
  · rw [div_le_one (by norm_num)]
    have : ((roundHalfEven (q * 10000) : Int) : Rat) ≤ ((10000 : Int) : Rat) := by
      exact_mod_cast hu
    simpa using this

theorem pctOf_bounds {x : Int} {n : Nat} (hx0 : 0 ≤ x) (hxn : x ≤ (n : Int)) (hn : 0 < n) :
    ∃ q, pctOf x n = some q ∧ 0 ≤ q ∧ q ≤ 1 := by
  have hne : ¬ n = 0 := Nat.pos_iff_ne_zero.1 hn
  refine ⟨round4 ((x : Rat) / (n : Rat)), by rw [pctOf, if_neg hne], ?_⟩
  have hnr : (0 : Rat) < (n : Rat) := by exact_mod_cast hn
  have h0 : (0 : Rat) ≤ (x : Rat) / (n : Rat) := by
    apply div_nonneg _ (le_of_lt hnr)
    exact_mod_cast hx0
  have h1 : (x : Rat) / (n : Rat) ≤ 1 := by
    rw [div_le_one hnr]
    exact_mod_cast hxn
  exact round4_bounds h0 h1

theorem valueCounts_perm (cells : List (Option String)) :
    (valueCounts cells).Perm ((distinctVals cells).map (fun v => (v, countVal cells v))) :=
  List.perm_insertionSort _ _

theorem mem_valueCounts {cells : List (Option String)} {p : String × Nat}
    (hp : p ∈ valueCounts cells) :
    p.1 ∈ distinctVals cells ∧ p.2 = countVal cells p.1 := by
  have hmem := (valueCounts_perm cells).mem_iff.1 hp
  obtain ⟨v, hv, rfl⟩ := List.mem_map.1 hmem
  exact ⟨hv, rfl⟩

theorem valueCounts_mem_of_distinct {cells : List (Option String)} {v : String}
    (hv : v ∈ distinctVals cells) :
    (v, countVal cells v) ∈ valueCounts cells :=
  (valueCounts_perm cells).mem_iff.2 (List.mem_map.2 ⟨v, hv, rfl⟩)

theorem valueCounts_sorted (cells : List (Option String)) :
    List.Sorted countGe (valueCounts cells) :=
  List.sorted_insertionSort _ _

theorem valueCounts_fst_nodup (cells : List (Option String)) :
    ((valueCounts cells).map Prod.fst).Nodup := by
  have hperm : ((valueCounts cells).map Prod.fst).Perm
      (((distinctVals cells).map (fun v => (v, countVal cells v))).map Prod.fst) :=
    (valueCounts_perm cells).map Prod.fst
  refine hperm.nodup_iff.2 ?_
  rw [List.map_map]
  have : (Prod.fst ∘ fun v => (v, countVal cells v)) = id := rfl
  rw [this, List.map_id]
  exact nodup_uniqueFirst _

theorem valueCounts_length (cells : List (Option String)) :
    (valueCounts cells).length = (distinctVals cells).length := by
  rw [(valueCounts_perm cells).length_eq, List.length_map]

/-- The warning rules of `Profiler.__screen_for_warnings`, as an explicit
ordered list of (predicate, outcome) pairs, in source-statement order. -/
def warningRules : List ((TypedRecord → Bool) × String) :=
  [ (warnNonBinaryLabel, "LABEL WARNING, NON-BINARY EVENT LABEL"),
    (warnTooUnique, "EXCLUDE, GT 90% UNIQUE"),
    (warnHighNulls, "NULL WARNING, GT 20% MISSING"),
    (warnExcludeNulls, "EXCLUDE, GT 50% MISSING"),
    (warnLowCardNumeric, "LIKELY CATEGORICAL, NUMERIC w. LOW CARDINALITY") ]

/-- Specification-side reading of the warning screen: the outcome of the
LAST matching predicate in `warningRules`, and `"NO WARNING"` when no
predicate matches. -/
def lastMatchWarning (r : TypedRecord) : String :=
  match List.find? (fun pw => pw.1 r) warningRules.reverse with
  | some pw => pw.2
  | none => "NO WARNING"

theorem foldl_override_eq_find (rules : List ((TypedRecord → Bool) × String))
    (r : TypedRecord) (acc : String) :
    rules.foldl (fun a pw => if pw.1 r then pw.2 else a) acc =
      (match List.find? (fun pw => pw.1 r) rules.reverse with
       | some pw => pw.2
       | none => acc) := by
  induction rules generalizing acc with
  | nil => rfl
  | cons x xs ih =>
    rw [List.foldl_cons, List.reverse_cons, List.find?_append, ih]
    cases hfind : List.find? (fun pw => pw.1 r) xs.reverse with
    | some pw => simp [Option.or]
    | none =>
      cases hx : x.1 r <;> simp [List.find?, hx, Option.or]

/-- One row of the summary-stats pipeline for one column: statistics, then
feature type, then warning.  On concrete frames `getSummaryStatsTable`
reduces to `Except.ok` of the column-wise map of this row builder. -/
def summaryRow (n : Nat) (e : String) (c : Column) : WarnRecord :=
  let sr := statOf n e c
  let tr : TypedRecord := { toStatRecord := sr, feature_type := featureTypeOf sr.feature_name sr.dtype }
  { toTypedRecord := tr, feature_warning := screenWarning tr }

/-- The feature type the pipeline assigns to a column: `featureTypeOf` on the
column's name and its dtype as adjusted by the event-column `astype('str')`. -/
def colFeatureType (e : String) (c : Column) : String :=
  featureTypeOf c.name (if c.name == e then Dtype.object else c.dtype)

/-! ## Claim theorems -/

/-- Claim C2 (code_bug evaluation): for every dataset, warning table and
choice of designated columns, invoking schema extraction with the
filter-warnings flag set fails with the `NameError` raised by the undefined
name `df_stats` (`profiler.py` line 184) — it never returns normally, so it
never returns the warned-variables-only list the spec promises. -/
theorem claimC2_filter_flag_name_error (data : DataFrame) (df_warn : List WarnRecord)
    (event_column timestamp_column : String) :
    extractFrauddetectorSchema data df_warn event_column timestamp_column true =
      Except.error "NameError: name df_stats is not defined" :=
  rfl

/-- Claim C4 counterexample: a label column with exactly ONE distinct value.
The claim says derivation fails (returns no labels) for any cardinality
other than two; the source's guard (`profiler.py` line 119) only rejects
MORE than two, so a single-valued column succeeds with one descriptor. -/
theorem claimC4_counterexample :
    (uniqueFirst [some "a", some "a"]).length = 1 ∧
    createLabels [some "a", some "a"] = some [{ name := some "a" }] :=
  ⟨rfl, rfl⟩

/-- Claim C4 (amended): label derivation succeeds — one descriptor per
distinct value of the column, in first-occurrence order — exactly when the
designated label column contains AT MOST two distinct values; with more
than two it logs a label-cardinality error and returns no labels; it never
raises. -/
theorem claimC4_amended (cells : List (Option String)) :
    (uniqueFirst cells).Nodup ∧
    (∀ a, a ∈ uniqueFirst cells ↔ a ∈ cells) ∧
    ((uniqueFirst cells).length ≤ 2 →
      ∃ ls, createLabels cells = some ls ∧ ls.map LabelDesc.name = uniqueFirst cells) ∧
    (2 < (uniqueFirst cells).length → createLabels cells = none) := by
  refine ⟨nodup_uniqueFirst _, fun a => mem_uniqueFirst _ _, ?_, ?_⟩
  · intro hle
    refine ⟨(uniqueFirst cells).map (fun x => { name := x }), ?_, ?_⟩
    · rw [createLabels, if_neg (by omega)]
    · rw [List.map_map]
      exact List.map_id _
  · intro hgt
    rw [createLabels, if_pos hgt]

/-- Claim C4 witness: a two-valued column succeeds with both values in
first-occurrence order. -/
theorem claimC4_amended_witness :
    (uniqueFirst [some "legit", some "fraud", some "legit"]).length ≤ 2 ∧
    ∃ ls, createLabels [some "legit", some "fraud", some "legit"] = some ls ∧
      ls.map LabelDesc.name = uniqueFirst [some "legit", some "fraud", some "legit"] :=
  ⟨by decide, (claimC4_amended [some "legit", some "fraud", some "legit"]).2.2.1 (by decide)⟩

/-- Claim C5: the warning screen computes, for every column record, exactly
the outcome of the LAST matching predicate of the fixed, ordered rule list
(non-binary label; category over 90% unique; nulls in 20–50%; nulls over
50%; numeric with under 20% distinct), and `"NO WARNING"` when none
matches. -/
theorem claimC5_last_match (r : TypedRecord) :
    screenWarning r = lastMatchWarning r := by
  have h : screenWarning r =
      warningRules.foldl (fun a pw => if pw.1 r then pw.2 else a) "NO WARNING" := rfl
  rw [h, lastMatchWarning, foldl_override_eq_find]

/-- Claim C6: variable derivation emits exactly one descriptor per column
other than the designated label and timestamp columns (in order), never
emits those two names, types NUMERIC columns as FLOAT, and gives every
descriptor — NUMERIC ones included — the literal default `"unknown"`. -/
theorem claimC6_variables (stats : List WarnRecord) (e t : String) :
    (createVariables stats e t).map VarDesc.name =
      (stats.map (fun r => r.feature_name)).filter (fun n => n != e && n != t) ∧
    ∀ v ∈ createVariables stats e t,
      v.name ≠ e ∧ v.name ≠ t ∧ v.defaultValue = "unknown" ∧
      (v.variableType = "NUMERIC" → v.dataType = "FLOAT") := by
  constructor
  · rw [createVariables_eq, List.map_map, List.filter_map]
    rfl
  · intro v hv
    rw [createVariables_eq] at hv
    obtain ⟨r, hr, rfl⟩ := List.mem_map.1 hv
    have hq := (List.mem_filter.1 hr).2
    rw [Bool.and_eq_true, bne_iff_ne, bne_iff_ne] at hq
    refine ⟨hq.1, hq.2, rfl, ?_⟩
    intro hnum
    have hft : r.feature_type = "NUMERIC" := hnum
    simp [mkVariable, hft]

/-- Claim C6 witness: a NUMERIC record not named like the designated
columns yields a FLOAT-typed descriptor with default `"unknown"`. -/
theorem claimC6_variables_witness :
    mkVariable
        { feature_name := "Value", dtype := Dtype.int64, count := 4, nunique := 2,
          null := 0, not_null := 4, null_pct := none, nunique_pct := none,
          feature_type := "NUMERIC", feature_warning := "NO WARNING" } ∈
      createVariables
        [{ feature_name := "Value", dtype := Dtype.int64, count := 4, nunique := 2,
           null := 0, not_null := 4, null_pct := none, nunique_pct := none,
           feature_type := "NUMERIC", feature_warning := "NO WARNING" }]
        "EVENT_LABEL" "EVENT_TIMESTAMP" ∧
    ((mkVariable
        { feature_name := "Value", dtype := Dtype.int64, count := 4, nunique := 2,
          null := 0, not_null := 4, null_pct := none, nunique_pct := none,
          feature_type := "NUMERIC", feature_warning := "NO WARNING" }).name ≠ "EVENT_LABEL" ∧
      (mkVariable
        { feature_name := "Value", dtype := Dtype.int64, count := 4, nunique := 2,
          null := 0, not_null := 4, null_pct := none, nunique_pct := none,
          feature_type := "NUMERIC", feature_warning := "NO WARNING" }).name ≠ "EVENT_TIMESTAMP" ∧
      (mkVariable
        { feature_name := "Value", dtype := Dtype.int64, count := 4, nunique := 2,
          null := 0, not_null := 4, null_pct := none, nunique_pct := none,
          feature_type := "NUMERIC", feature_warning := "NO WARNING" }).defaultValue = "unknown" ∧
      ((mkVariable
        { feature_name := "Value", dtype := Dtype.int64, count := 4, nunique := 2,
          null := 0, not_null := 4, null_pct := none, nunique_pct := none,
          feature_type := "NUMERIC", feature_warning := "NO WARNING" }).variableType = "NUMERIC" →
        (mkVariable
        { feature_name := "Value", dtype := Dtype.int64, count := 4, nunique := 2,
          null := 0, not_null := 4, null_pct := none, nunique_pct := none,
          feature_type := "NUMERIC", feature_warning := "NO WARNING" }).dataType = "FLOAT")) :=
  ⟨List.mem_cons_self _ _,
   (claimC6_variables
      [{ feature_name := "Value", dtype := Dtype.int64, count := 4, nunique := 2,
         null := 0, not_null := 4, null_pct := none, nunique_pct := none,
         feature_type := "NUMERIC", feature_warning := "NO WARNING" }]
      "EVENT_LABEL" "EVENT_TIMESTAMP").2 _ (List.mem_cons_self _ _)⟩

/-- Claim C7 (code_bug evaluation): with entity type `"customer"` and event
type `"transaction"`, and `"customer"` already existing remotely, the skip
path of `create_entity_type` issues no remote call and leaves the state
unchanged, but records the `"skipped"` status under the EVENT-type name
`"transaction"` (`frauddetector.py` line 306), not under the entity name. -/
theorem claimC7_entity_skip_wrong_key :
    createEntityType ⟨"customer", "transaction", "model1"⟩ ⟨["customer"], [], [], [], []⟩ =
      (⟨["customer"], [], [], [], []⟩, [("transaction", OpStatus.skipped)]) ∧
    ("transaction" : String) ≠ "customer" :=
  ⟨rfl, by decide⟩

/-- Claim C10: at a dataset whose two label values occur equally often
(`"a"` and `"b"` twice each), `value_counts` ties and both `idxmin` and
`idxmax` pick the first entry, so FRAUD and LEGIT are mapped to the SAME
value `"a"` — the derived label mapping does not guarantee distinct
entries. -/
theorem claimC10_tie_same_label :
    getFrauddetectorInputs
        ⟨4, [⟨"EVENT_LABEL", Dtype.object, [some "a", some "b", some "a", some "b"]⟩]⟩
        "EVENT_LABEL" "EVENT_TIMESTAMP" false =
      Except.ok
        ({ modelVariables := [], labelMapper := { fraud := ["a"], legit := ["a"] } },
         [], some [{ name := some "a" }, { name := some "b" }]) ∧
    countVal [some "a", some "b", some "a", some "b"] "a" =
      countVal [some "a", some "b", some "a", some "b"] "b" ∧
    ({ fraud := ["a"], legit := ["a"] } : LabelMapper).fraud =
      ({ fraud := ["a"], legit := ["a"] } : LabelMapper).legit :=
  ⟨rfl, rfl, rfl⟩

/-- Claim C1 counterexample: a dataset whose designated label column is
named `"fraud_label"`.  The classifier (`profiler.py` lines 89-90)
compares against the literal `"EVENT_LABEL"`, so the designated column is
classified `"CATEGORY"` by its dtype, not `"TARGET"`. -/
theorem claimC1_counterexample :
    Except.map (fun rs => rs.map (fun r => (r.feature_name, r.feature_type)))
        (getSummaryStatsTable
          ⟨2, [⟨"fraud_label", Dtype.object, [some "yes", some "no"]⟩]⟩
          "fraud_label" "EVENT_TIMESTAMP") =
      Except.ok [("fraud_label", "CATEGORY")] ∧
    ("CATEGORY" : String) ≠ "TARGET" :=
  ⟨rfl, by decide⟩

/-- Claim C8 counterexample: a column named `"ip_address_email"` matches
the ip-address pattern, but the email rule runs later (`profiler.py`
line 88) and overwrites the classification to `EMAIL_ADDRESS`. -/
theorem claimC8_counterexample :
    Except.map (fun rs => rs.map (fun r => (r.feature_name, r.feature_type)))
        (getSummaryStatsTable
          ⟨1, [⟨"EVENT_LABEL", Dtype.object, [some "x"]⟩,
               ⟨"ip_address_email", Dtype.object, [some "y"]⟩]⟩
          "EVENT_LABEL" "EVENT_TIMESTAMP") =
      Except.ok [("EVENT_LABEL", "TARGET"), ("ip_address_email", "EMAIL_ADDRESS")] ∧
    containsIpPattern "ip_address_email" = true ∧
    ("EMAIL_ADDRESS" : String) ≠ "IP_ADDRESS" :=
  ⟨rfl, by decide, by decide⟩

/-- Claim C9 counterexample: on an empty dataset (zero rows) the null and
distinct fractions are the NaN of the `0 / 0` division (modelled `none`),
which lies in no interval — in particular not in `[0, 1]`. -/
theorem claimC9_counterexample :
    Except.map (fun rs => rs.map (fun r => (r.null_pct, r.nunique_pct)))
        (calculateSummaryStats ⟨0, [⟨"EVENT_LABEL", Dtype.object, []⟩]⟩ "EVENT_LABEL") =
      Except.ok [((none : Option Rat), (none : Option Rat))] ∧
    ∀ q : Rat, ((none : Option Rat) = some q ∧ 0 ≤ q ∧ q ≤ 1) → False :=
  ⟨rfl, fun _ h => Option.noConfusion h.1⟩

/-- Claim C1 (amended): in the summary-stats/classification pipeline the
column named exactly `"EVENT_LABEL"` is always classified TARGET and the
column named exactly `"EVENT_TIMESTAMP"` is always classified
EVENT_TIMESTAMP, for every dataset, regardless of dtype and regardless of
the designated label/timestamp arguments — the classifier ignores those
arguments (they are hardcoded literals in `profiler.py` lines 89-90), so a
designated label column under any other name is NOT classified TARGET. -/
theorem claimC1_amended {df : DataFrame} {e t : String} {rs : List WarnRecord} {r : WarnRecord}
    (h : getSummaryStatsTable df e t = Except.ok rs) (hr : r ∈ rs) :
    (r.feature_name = "EVENT_LABEL" → r.feature_type = "TARGET") ∧
    (r.feature_name = "EVENT_TIMESTAMP" → r.feature_type = "EVENT_TIMESTAMP") := by
  obtain ⟨c, hc, hstat, hname, htype, hwarn⟩ := mem_summaryTable h hr
  constructor
  · intro hl
    have hcn : c.name = "EVENT_LABEL" := hname.symm.trans hl
    rw [htype, hcn, featureTypeOf_eventLabel]
  · intro hl
    have hcn : c.name = "EVENT_TIMESTAMP" := hname.symm.trans hl
    rw [htype, hcn, featureTypeOf_eventTimestamp]

/-- Claim C1 witness: on a one-column frame named `EVENT_LABEL`, the row is
classified TARGET. -/
theorem claimC1_amended_witness :
    (summaryRow 1 "EVENT_LABEL" ⟨"EVENT_LABEL", Dtype.object, [some "x"]⟩).feature_name =
      "EVENT_LABEL" ∧
    (summaryRow 1 "EVENT_LABEL" ⟨"EVENT_LABEL", Dtype.object, [some "x"]⟩).feature_type =
      "TARGET" := by
  have h : getSummaryStatsTable ⟨1, [⟨"EVENT_LABEL", Dtype.object, [some "x"]⟩]⟩
      "EVENT_LABEL" "EVENT_TIMESTAMP" =
      Except.ok [summaryRow 1 "EVENT_LABEL" ⟨"EVENT_LABEL", Dtype.object, [some "x"]⟩] := rfl
  exact ⟨rfl, (claimC1_amended h (List.mem_cons_self _ _)).1 rfl⟩

/-- Claim C8 (amended): a column whose name matches the ip-address pattern
(`ipaddress` / `ip_address` / `ipaddr`) is classified IP_ADDRESS regardless
of its storage dtype, PROVIDED its name does not also contain `"email"` —
the later email rule (`profiler.py` line 88) overrides the ip rule when
both match. -/
theorem claimC8_amended {df : DataFrame} {e t : String} {rs : List WarnRecord} {r : WarnRecord}
    (h : getSummaryStatsTable df e t = Except.ok rs) (hr : r ∈ rs)
    (hip : containsIpPattern r.feature_name = true)
    (hem : strContains r.feature_name "email" = false) :
    r.feature_type = "IP_ADDRESS" := by
  obtain ⟨c, hc, hstat, hname, htype, hwarn⟩ := mem_summaryTable h hr
  rw [hname] at hip hem
  have hl : ¬ c.name = "EVENT_LABEL" := by
    rintro heq
    rw [heq] at hip
    exact absurd hip (by decide)
  have hts : ¬ c.name = "EVENT_TIMESTAMP" := by
    rintro heq
    rw [heq] at hip
    exact absurd hip (by decide)
  have h2 : strContains c.name "email_address" = false := by
    cases h2 : strContains c.name "email_address"
    · rfl
    · have htr : strContains c.name "email" = true :=
        strContains_of_strContains (by decide) h2
      rw [hem] at htr
      exact Bool.noConfusion htr
  have h3 : strContains c.name "emailaddr" = false := by
    cases h3 : strContains c.name "emailaddr"
    · rfl
    · have htr : strContains c.name "email" = true :=
        strContains_of_strContains (by decide) h3
      rw [hem] at htr
      exact Bool.noConfusion htr
  have hemail : containsEmailPattern c.name = false := by
    rw [containsEmailPattern, hem, h2, h3]
    rfl
  have hbl : (c.name == "EVENT_LABEL") = false := beq_eq_false_iff_ne.2 hl
  have hbts : (c.name == "EVENT_TIMESTAMP") = false := beq_eq_false_iff_ne.2 hts
  rw [htype]
  simp [featureTypeOf, hbl, hbts, hip, hemail]

/-- Claim C8 witness: a column named `src_ip_address` (no email pattern) of
string dtype is classified IP_ADDRESS. -/
theorem claimC8_amended_witness :
    containsIpPattern "src_ip_address" = true ∧
    strContains "src_ip_address" "email" = false ∧
    (summaryRow 1 "EVENT_LABEL" ⟨"src_ip_address", Dtype.object, [some "y"]⟩).feature_type =
      "IP_ADDRESS" := by
  have h : getSummaryStatsTable
      ⟨1, [⟨"EVENT_LABEL", Dtype.object, [some "x"]⟩,
           ⟨"src_ip_address", Dtype.object, [some "y"]⟩]⟩
      "EVENT_LABEL" "EVENT_TIMESTAMP" =
      Except.ok [summaryRow 1 "EVENT_LABEL" ⟨"EVENT_LABEL", Dtype.object, [some "x"]⟩,
                 summaryRow 1 "EVENT_LABEL" ⟨"src_ip_address", Dtype.object, [some "y"]⟩] := rfl
  refine ⟨by decide, by decide, ?_⟩
  exact claimC8_amended h (List.mem_cons_of_mem _ (List.mem_cons_self _ _))
    (by decide) (by decide)

/-- Claim C9 (amended): on every dataset with AT LEAST ONE ROW (the zero-row
dataset produces NaN fractions instead), each column's null fraction and
distinct fraction lie in `[0, 1]`, and both are computed with the dataset's
row count as the single denominator. -/
theorem claimC9_amended {df : DataFrame} {e : String} {rs : List StatRecord} {r : StatRecord}
    (h : calculateSummaryStats df e = Except.ok rs) (hr : r ∈ rs)
    (hwf : ∀ c ∈ df.cols, c.cells.length = df.nrows) (hn : 0 < df.nrows) :
    (∃ q, r.null_pct = some q ∧ 0 ≤ q ∧ q ≤ 1) ∧
    (∃ q, r.nunique_pct = some q ∧ 0 ≤ q ∧ q ≤ 1) ∧
    r.null_pct = pctOf r.null df.nrows ∧
    r.nunique_pct = pctOf (r.nunique : Int) df.nrows := by
  rw [calculateSummaryStats] at h
  by_cases hany : df.cols.any (fun c => c.name == e)
  · rw [if_pos hany] at h
    injection h with h
    subst h
    obtain ⟨c, hc, rfl⟩ := List.mem_map.1 hr
    have hlen : c.cells.length = df.nrows := hwf c hc
    have hcnt : (statOf df.nrows e c).count ≤ df.nrows := by
      rw [statOf_count]
      refine le_trans (List.length_filterMap_le _ _) ?_
      by_cases hev : (c.name == e) = true <;> simp [hev, hlen]
    have hnuniq : (statOf df.nrows e c).nunique ≤ (statOf df.nrows e c).count := by
      rw [statOf_nunique, statOf_count]
      exact length_uniqueFirst_le _
    have hnull0 : 0 ≤ (statOf df.nrows e c).null := by
      rw [statOf_null]
      omega
    have hnulln : (statOf df.nrows e c).null ≤ (df.nrows : Int) := by
      rw [statOf_null]
      omega
    refine ⟨?_, ?_, statOf_null_pct _ _ _, statOf_nunique_pct _ _ _⟩
    · rw [statOf_null_pct]
      exact pctOf_bounds hnull0 hnulln hn
    · rw [statOf_nunique_pct]
      refine pctOf_bounds (Int.natCast_nonneg _) ?_ hn
      have hle : (statOf df.nrows e c).nunique ≤ df.nrows := le_trans hnuniq hcnt
      exact_mod_cast hle
  · rw [if_neg hany] at h
    exact Except.noConfusion h

/-- Claim C9 witness: on a one-row frame the fractions exist and are in
`[0, 1]`, with the row count as denominator in both. -/
theorem claimC9_amended_witness :
    (∃ q, (statOf 1 "EVENT_LABEL" ⟨"EVENT_LABEL", Dtype.object, [some "x"]⟩).null_pct =
        some q ∧ 0 ≤ q ∧ q ≤ 1) ∧
    (∃ q, (statOf 1 "EVENT_LABEL" ⟨"EVENT_LABEL", Dtype.object, [some "x"]⟩).nunique_pct =
        some q ∧ 0 ≤ q ∧ q ≤ 1) ∧
    (statOf 1 "EVENT_LABEL" ⟨"EVENT_LABEL", Dtype.object, [some "x"]⟩).null_pct =
      pctOf (statOf 1 "EVENT_LABEL" ⟨"EVENT_LABEL", Dtype.object, [some "x"]⟩).null 1 ∧
    (statOf 1 "EVENT_LABEL" ⟨"EVENT_LABEL", Dtype.object, [some "x"]⟩).nunique_pct =
      pctOf ((statOf 1 "EVENT_LABEL" ⟨"EVENT_LABEL", Dtype.object, [some "x"]⟩).nunique : Int) 1 := by
  have h : calculateSummaryStats ⟨1, [⟨"EVENT_LABEL", Dtype.object, [some "x"]⟩]⟩
      "EVENT_LABEL" =
      Except.ok [statOf 1 "EVENT_LABEL" ⟨"EVENT_LABEL", Dtype.object, [some "x"]⟩] := rfl
  exact claimC9_amended h (List.mem_cons_self _ _) (by decide) (by decide)

theorem idxminVC_pair (a b : String × Nat) :
    idxminVC [a, b] = some (if b.2 < a.2 then b else a).1 := rfl

theorem idxmaxVC_pair (a b : String × Nat) :
    idxmaxVC [a, b] = some (if a.2 < b.2 then b else a).1 := rfl

/-- Reduction of `extractFrauddetectorSchema` when the filter flag is off,
the event column exists and its `value_counts` has exactly two entries
(sorted descending, so the second count is at most the first). -/
theorem extract_ok {data : DataFrame} {df_warn : List WarnRecord} {e t : String} {c : Column}
    {a b : String × Nat}
    (hcol : data.getCol e = some c) (hab : valueCounts c.cells = [a, b]) (hba : b.2 ≤ a.2) :
    extractFrauddetectorSchema data df_warn e t false =
      Except.ok
        ({ modelVariables :=
             (df_warn.filter (fun r => modelVarTypes.contains r.feature_type)).map
               (fun r => r.feature_name),
           labelMapper := { fraud := [(if b.2 < a.2 then b else a).1], legit := [a.1] } },
         createVariables df_warn e t, createLabels c.cells) := by
  rw [extractFrauddetectorSchema, if_neg Bool.false_ne_true]
  simp only [hcol, hab, idxminVC_pair, idxmaxVC_pair, if_neg (not_lt.2 hba)]

/-- Claim C3: when the designated label column has exactly two distinct
(non-null) values, the derived training data schema's `modelVariables` is
exactly the list of column names classified CATEGORY, NUMERIC, IP_ADDRESS
or EMAIL_ADDRESS, and the label mapper sends FRAUD to a value of minimal
occurrence count and LEGIT to a value of maximal occurrence count; when the
two counts differ, FRAUD and LEGIT get distinct values (the strict minority
and majority respectively). -/
theorem claimC3_training_schema {df : DataFrame} {event ts : String} {c : Column}
    (hcol : df.getCol event = some c)
    (hvc : (valueCounts c.cells).length = 2) :
    ∃ schema vars labels fv lv,
      getFrauddetectorInputs df event ts false = Except.ok (schema, vars, labels) ∧
      schema.modelVariables =
        (df.cols.filter (fun cc => modelVarTypes.contains (colFeatureType event cc))).map
          Column.name ∧
      schema.labelMapper = { fraud := [fv], legit := [lv] } ∧
      fv ∈ distinctVals c.cells ∧ lv ∈ distinctVals c.cells ∧
      (∀ v ∈ distinctVals c.cells, countVal c.cells fv ≤ countVal c.cells v) ∧
      (∀ v ∈ distinctVals c.cells, countVal c.cells v ≤ countVal c.cells lv) ∧
      ((∃ v ∈ distinctVals c.cells, countVal c.cells v ≠ countVal c.cells lv) → fv ≠ lv) := by
  have hfind : df.cols.find? (fun cc => cc.name == event) = some c := hcol
  have hc : c ∈ df.cols := List.mem_of_find?_eq_some hfind
  have hcn : (c.name == event) = true :=
    @List.find?_some Column (fun cc => cc.name == event) c df.cols hfind
  have hany : df.cols.any (fun cc => cc.name == event) = true :=
    List.any_eq_true.2 ⟨c, hc, hcn⟩
  have hsum : getSummaryStatsTable df event "EVENT_TIMESTAMP" =
      Except.ok (screenForWarnings (mapFeatureTypes (df.cols.map (statOf df.nrows event)))) := by
    rw [getSummaryStatsTable, calculateSummaryStats, if_pos hany]
    rfl
  obtain ⟨a, b, hab⟩ := List.length_eq_two.1 hvc
  have hsorted := valueCounts_sorted c.cells
  rw [hab] at hsorted
  have hba : b.2 ≤ a.2 := (List.sorted_cons.1 hsorted).1 b (List.mem_cons_self _ _)
  have hrun : getFrauddetectorInputs df event ts false =
      Except.ok
        ({ modelVariables :=
             ((screenForWarnings (mapFeatureTypes (df.cols.map (statOf df.nrows event)))).filter
               (fun r => modelVarTypes.contains r.feature_type)).map
               (fun r => r.feature_name),
           labelMapper := { fraud := [(if b.2 < a.2 then b else a).1], legit := [a.1] } },
         createVariables (screenForWarnings (mapFeatureTypes (df.cols.map (statOf df.nrows event))))
           event ts,
         createLabels c.cells) := by
    rw [getFrauddetectorInputs, hsum]
    exact extract_ok hcol hab hba
  have hamem : a ∈ valueCounts c.cells := by
    rw [hab]; exact List.mem_cons_self _ _
  have hbmem : b ∈ valueCounts c.cells := by
    rw [hab]; exact List.mem_cons_of_mem _ (List.mem_cons_self _ _)
  obtain ⟨haD, haC⟩ := mem_valueCounts hamem
  obtain ⟨hbD, hbC⟩ := mem_valueCounts hbmem
  have hnd : a.1 ≠ b.1 := by
    have hnodup := valueCounts_fst_nodup c.cells
    rw [hab] at hnodup
    have := List.nodup_cons.1 hnodup
    intro heq
    exact this.1 (heq ▸ List.mem_cons_self _ _)
  have hcases : ∀ v ∈ distinctVals c.cells,
      (v = a.1 ∧ countVal c.cells v = a.2) ∨ (v = b.1 ∧ countVal c.cells v = b.2) := by
    intro v hv
    have hmem := valueCounts_mem_of_distinct hv
    rw [hab] at hmem
    rcases List.mem_cons.1 hmem with heq | hin
    · exact Or.inl ⟨congrArg Prod.fst heq, congrArg Prod.snd heq⟩
    · have heq := List.mem_singleton.1 hin
      exact Or.inr ⟨congrArg Prod.fst heq, congrArg Prod.snd heq⟩
  refine ⟨_, _, _, (if b.2 < a.2 then b else a).1, a.1, hrun, ?_, rfl, ?_, haD, ?_, ?_, ?_⟩
  · -- modelVariables = column names classified in the four model types
    simp only [screenForWarnings, mapFeatureTypes, List.map_map, List.filter_map]
    rfl
  · -- fv is a distinct value
    by_cases hlt : b.2 < a.2
    · rw [if_pos hlt]; exact hbD
    · rw [if_neg hlt]; exact haD
  · -- fv attains the minimal count
    intro v hv
    have heqc : a.2 = b.2 ∨ b.2 < a.2 := by omega
    by_cases hlt : b.2 < a.2
    · rw [if_pos hlt]
      rcases hcases v hv with ⟨_, hcv⟩ | ⟨_, hcv⟩
      · rw [hcv, ← hbC]; omega
      · rw [hcv, ← hbC]
    · rw [if_neg hlt]
      have heq : a.2 = b.2 := by omega
      rcases hcases v hv with ⟨_, hcv⟩ | ⟨_, hcv⟩
      · rw [hcv, ← haC]
      · rw [hcv, ← haC]; omega
  · -- lv attains the maximal count
    intro v hv
    rcases hcases v hv with ⟨_, hcv⟩ | ⟨_, hcv⟩
    · rw [hcv, ← haC]
    · rw [hcv, ← haC]; omega
  · -- when some count differs from the majority count, FRAUD ≠ LEGIT
    rintro ⟨v, hv, hvne⟩
    rcases hcases v hv with ⟨_, hcv⟩ | ⟨_, hcv⟩
    · exact absurd (hcv.trans haC) hvne
    · have hneq : b.2 ≠ a.2 := by
        intro heq
        exact hvne (by rw [hcv, heq, haC])
      have hlt : b.2 < a.2 := lt_of_le_of_ne hba hneq
      rw [if_pos hlt]
      exact fun heq => hnd heq.symm

/-- Claim C3 witness: the four-row test frame (label values `legit` ×3,
`fraud` ×1). -/
theorem claimC3_training_schema_witness :
    DataFrame.getCol
        ⟨4, [⟨"EVENT_LABEL", Dtype.object,
              [some "legit", some "fraud", some "legit", some "legit"]⟩]⟩ "EVENT_LABEL" =
      some ⟨"EVENT_LABEL", Dtype.object,
            [some "legit", some "fraud", some "legit", some "legit"]⟩ ∧
    (valueCounts [some "legit", some "fraud", some "legit", some "legit"]).length = 2 ∧
    ∃ schema vars labels fv lv,
      getFrauddetectorInputs
          ⟨4, [⟨"EVENT_LABEL", Dtype.object,
                [some "legit", some "fraud", some "legit", some "legit"]⟩]⟩
          "EVENT_LABEL" "EVENT_TIMESTAMP" false = Except.ok (schema, vars, labels) ∧
      schema.modelVariables =
        (DataFrame.cols
            ⟨4, [⟨"EVENT_LABEL", Dtype.object,
                  [some "legit", some "fraud", some "legit", some "legit"]⟩]⟩
          |>.filter (fun cc => modelVarTypes.contains (colFeatureType "EVENT_LABEL" cc))).map
          Column.name ∧
      schema.labelMapper = { fraud := [fv], legit := [lv] } ∧
      fv ∈ distinctVals [some "legit", some "fraud", some "legit", some "legit"] ∧
      lv ∈ distinctVals [some "legit", some "fraud", some "legit", some "legit"] ∧
      (∀ v ∈ distinctVals [some "legit", some "fraud", some "legit", some "legit"],
        countVal [some "legit", some "fraud", some "legit", some "legit"] fv ≤
          countVal [some "legit", some "fraud", some "legit", some "legit"] v) ∧
      (∀ v ∈ distinctVals [some "legit", some "fraud", some "legit", some "legit"],
        countVal [some "legit", some "fraud", some "legit", some "legit"] v ≤
          countVal [some "legit", some "fraud", some "legit", some "legit"] lv) ∧
      ((∃ v ∈ distinctVals [some "legit", some "fraud", some "legit", some "legit"],
          countVal [some "legit", some "fraud", some "legit", some "legit"] v ≠
            countVal [some "legit", some "fraud", some "legit", some "legit"] lv) → fv ≠ lv) :=
  ⟨rfl, by decide,
   @claimC3_training_schema
     ⟨4, [⟨"EVENT_LABEL", Dtype.object,
           [some "legit", some "fraud", some "legit", some "legit"]⟩]⟩
     "EVENT_LABEL" "EVENT_TIMESTAMP"
     ⟨"EVENT_LABEL", Dtype.object,
      [some "legit", some "fraud", some "legit", some "legit"]⟩
     rfl (by decide)⟩

/-- The skip path of `create_entity_type` issues no remote call and leaves
the remote state unchanged (though its status dict is keyed by the event
type, see `claimC7_entity_skip_wrong_key`). -/
theorem createEntityType_skip (cfg : FDConfig) (st : RemoteState)
    (h : cfg.entity_type ∈ st.entityTypes) :
    createEntityType cfg st = (st, [(cfg.event_type, OpStatus.skipped)]) := by
  rw [createEntityType, if_pos h]

theorem createModel_skip (cfg : FDConfig) (st : RemoteState)
    (h : cfg.model_name ∈ st.modelIds) :
    createModel cfg st = (st, [(cfg.model_name, OpStatus.skipped)]) := by
  rw [createModel, if_pos h]

/-- Running `create_model` twice in a row: the second run records
`"skipped"` under the model name and does not change the remote state. -/
theorem createModel_twice (cfg : FDConfig) (st : RemoteState) :
    createModel cfg (createModel cfg st).1 =
      ((createModel cfg st).1, [(cfg.model_name, OpStatus.skipped)]) := by
  by_cases h : cfg.model_name ∈ st.modelIds <;>
    simp [createModel, h]

/-- Running `create_event_type` twice in a row: the second run records
`"skipped"` under the event-type name and does not change the remote
state. -/
theorem createEventType_twice (cfg : FDConfig) (st : RemoteState) :
    createEventType cfg (createEventType cfg st).1 =
      ((createEventType cfg st).1, [(cfg.event_type, OpStatus.skipped)]) := by
  by_cases h : cfg.event_type ∈ st.eventTypes <;>
    simp [createEventType, h]

theorem varFold_all_skip (existing : List String) (l : List String) (st : RemoteState)
    (acc : List (String × OpStatus)) (h : ∀ v ∈ l, v ∈ existing) :
    l.foldl
      (fun acc2 v =>
        if v ∈ existing then
          (acc2.1, acc2.2 ++ [(v, OpStatus.skipped)])
        else
          ({ acc2.1 with variableNames := acc2.1.variableNames ++ [v] },
           acc2.2 ++ [(v, putOk)]))
      (st, acc) =
      (st, acc ++ l.map (fun v => (v, OpStatus.skipped))) := by
  induction l generalizing acc with
  | nil => simp
  | cons x xs ih =>
    rw [List.foldl_cons, if_pos (h x (List.mem_cons_self _ _)),
      ih _ (fun v hv => h v (List.mem_cons_of_mem _ hv))]
    simp

/-- When every requested variable name already exists remotely,
`create_variables` issues no remote call: the state is unchanged and every
variable is recorded `"skipped"`. -/
theorem createVariablesRemote_all_exist (varNames : List String) (st : RemoteState)
    (h : ∀ v ∈ varNames, v ∈ st.variableNames) :
    createVariablesRemote varNames st =
      (st, varNames.map (fun v => (v, OpStatus.skipped))) := by
  rw [createVariablesRemote]
  have := varFold_all_skip st.variableNames varNames st [] h
  simpa using this
